import Mathlib

/-!
Verification of the Nextcloud charm (`src/charm-nextcloud/src/charm.py`).

The charm is a single event-driven class `NextcloudCharm` holding a persisted
`StoredState` of boolean lifecycle flags and database-connection fields.  Each
Juju event handler is embedded below as a pure Lean function from the stored
state (plus the event's data, the unit's leadership, and the results of the
external commands it consults) to the new stored state together with its
observable side effects (file-system changes, subprocess invocations, event
deferral, unit status).  Subprocess failures in the source terminate the whole
process (`sys.exit`), so the embedding models the normal (success) path of each
handler; the outcome of the one external query whose value the control flow
branches on (`occ status`) is passed in as an explicit argument.
-/

/-- Unit status as set through `self.unit.status` (`ops.model` status classes). -/
inductive UnitStatus where
  | active (msg : String)
  | blocked (msg : String)
  | maintenance (msg : String)
  deriving Repr, DecidableEq

/-- The persisted `StoredState` of `NextcloudCharm`: the five lifecycle flags and
`data_dir` set by `_stored.set_default` in `__init__`, plus the database
connection fields written by `_on_master_changed` (absent until first written;
modelled as `Option String`, `none` standing for Python `None`/unset). -/
structure StoredState where
  data_dir : String
  nextcloud_fetched : Bool
  nextcloud_initialized : Bool
  database_available : Bool
  apache_configured : Bool
  php_configured : Bool
  db_conn_str : Option String
  db_uri : Option String
  dbname : Option String
  dbuser : Option String
  dbpass : Option String
  dbhost : Option String
  dbport : Option String
  dbtype : Option String
  deriving Repr, DecidableEq

/-- The stored state right after `__init__`'s `set_default` calls on a fresh
install (connection fields unset). -/
def initStored : StoredState :=
  { data_dir := "/var/www/nextcloud/data/"
    nextcloud_fetched := false
    nextcloud_initialized := false
    database_available := false
    apache_configured := false
    php_configured := false
    db_conn_str := none
    db_uri := none
    dbname := none
    dbuser := none
    dbpass := none
    dbhost := none
    dbport := none
    dbtype := none }

/-- `_on_update_status`: derives the unit status from the five flags, in the
source's fixed test order; in the all-flags-set branch the leader additionally
reports the workload version obtained from `get_nextcloud_status()['version']`
(passed in here as `ncVersion`).  Returns the status and the workload version
set (if any). -/
def on_update_status (s : StoredState) (isLeader : Bool) (ncVersion : String) :
    UnitStatus × Option String :=
  if !s.nextcloud_fetched then
    (UnitStatus.blocked "Nextcloud not fetched.", none)
  else if !s.nextcloud_initialized then
    (UnitStatus.blocked "Nextcloud not initialized.", none)
  else if !s.apache_configured then
    (UnitStatus.blocked "Apache not configured.", none)
  else if !s.php_configured then
    (UnitStatus.blocked "PHP not configured.", none)
  else if !s.database_available then
    (UnitStatus.blocked "No database.", none)
  else
    (UnitStatus.active "Ready", if isLeader then some ncVersion else none)

/-- Spec-side description (from the spec's words, for comparison with
`on_update_status`): the ordered list of (flag, blocked message) preconditions
"fetched → initialized → apache → php → database". -/
def statusChecksSpec (s : StoredState) : List (Bool × String) :=
  [(s.nextcloud_fetched, "Nextcloud not fetched."),
   (s.nextcloud_initialized, "Nextcloud not initialized."),
   (s.apache_configured, "Apache not configured."),
   (s.php_configured, "PHP not configured."),
   (s.database_available, "No database.")]

/-- Spec-side: the message of the first unmet precondition in an ordered
check list, `none` when all are met. -/
def firstUnmetSpec : List (Bool × String) → Option String
  | [] => none
  | (b, m) :: rest => if b then firstUnmetSpec rest else some m

/-- C1: For every valuation of the five stored flags, `_on_update_status`
reports the first unmet precondition, in the fixed order fetched → initialized
→ apache → php → database, as a blocked status; with fetched and initialized
set but apache unset the status is blocked "Apache not configured."; and the
unit becomes active exactly when all five flags are set. -/
theorem update_status_first_unmet (s : StoredState) (isLeader : Bool) (v : String) :
    ((on_update_status s isLeader v).1 =
      (match firstUnmetSpec (statusChecksSpec s) with
        | some m => UnitStatus.blocked m
        | none => UnitStatus.active "Ready")) ∧
    (s.nextcloud_fetched = true → s.nextcloud_initialized = true →
      s.apache_configured = false →
      (on_update_status s isLeader v).1 = UnitStatus.blocked "Apache not configured.") ∧
    ((on_update_status s isLeader v).1 = UnitStatus.active "Ready" ↔
      (s.nextcloud_fetched ∧ s.nextcloud_initialized ∧ s.apache_configured ∧
        s.php_configured ∧ s.database_available)) := by
  obtain ⟨dd, f, i, da, a, p, rest⟩ := s
  cases f <;> cases i <;> cases da <;> cases a <;> cases p <;>
    simp [on_update_status, statusChecksSpec, firstUnmetSpec]

/-- Witness for `update_status_first_unmet` at a concrete state: flags
fetched and initialized set, apache unset. -/
theorem update_status_first_unmet_witness :
    (on_update_status
      { initStored with nextcloud_fetched := true, nextcloud_initialized := true }
      false "18.0.3").1 = UnitStatus.blocked "Apache not configured." :=
  (update_status_first_unmet
    { initStored with nextcloud_fetched := true, nextcloud_initialized := true }
    false "18.0.3").2.1 rfl rfl rfl

/-- External side effects (subprocess invocations / network fetch) a handler
performs, in order. -/
inductive Effect where
  | aptInstall
  | fetchExtract
  | setDirectoryPermissions
  | initNextcloud
  | addInitialTrustedDomain
  | occStatusCheck
  deriving Repr, DecidableEq

/-- A `pgsql.ConnectionString` as read by `_on_master_changed`
(`conn_str`, `uri`, `dbname`, `user`, `password`, `host`, `port`). -/
structure ConnectionString where
  conn_str : String
  uri : String
  dbname : String
  user : String
  password : String
  host : String
  port : String
  deriving Repr, DecidableEq

/-- A `pgsql.MasterChangedEvent`: `event.database` (the relation's database
name, `None` until the leader has set it) and `event.master` (`None` when the
master database is unavailable). -/
structure MasterChangedEvent where
  database : Option String
  master : Option ConnectionString
  deriving Repr, DecidableEq

/-- `_on_master_changed`: returns early unless `event.database == 'nextcloud'`
and the unit is the leader; otherwise stores each connection field from
`event.master` (`None` when the master is gone), and when a master is present
marks `database_available` and — if not yet initialized — runs the
initialization sequence, setting `nextcloud_initialized` only if the `occ`
status query reports `installed` true (that query's result is passed in as
`installedNow`).  Returns the new stored state and the effects performed. -/
def on_master_changed (s : StoredState) (isLeader : Bool)
    (e : MasterChangedEvent) (installedNow : Bool) : StoredState × List Effect :=
  if e.database ≠ some "nextcloud" then (s, [])
  else if !isLeader then (s, [])
  else
    let s1 := { s with
      db_conn_str := e.master.map (fun m => m.conn_str)
      db_uri := e.master.map (fun m => m.uri)
      dbname := e.master.map (fun m => m.dbname)
      dbuser := e.master.map (fun m => m.user)
      dbpass := e.master.map (fun m => m.password)
      dbhost := e.master.map (fun m => m.host)
      dbport := e.master.map (fun m => m.port)
      dbtype := e.master.map (fun _ => "pgsql") }
    match e.master with
    | none => (s1, [])
    | some _ =>
      let s2 := { s1 with database_available := true }
      if !s2.nextcloud_initialized then
        let effs := [Effect.setDirectoryPermissions, Effect.initNextcloud,
          Effect.addInitialTrustedDomain, Effect.occStatusCheck]
        if installedNow then ({ s2 with nextcloud_initialized := true }, effs)
        else (s2, effs)
      else (s2, [])

/-- C2 counterexample: a master-changed event with `database = 'nextcloud'`
and `master = None`, delivered to the leader in a (reachable) state where
`database_available` is already true, leaves `database_available` true — not
false as the claim states: the handler never writes that flag on this path. -/
theorem master_changed_none_keeps_database_available :
    (on_master_changed { initStored with database_available := true } true
      { database := some "nextcloud", master := none } false).1.database_available
      = true := by
  rfl

/-- C2 (amended): a master-changed event with `database = 'nextcloud'` and
`master = None` delivered to the leader sets every stored connection field
(`db_conn_str`, `db_uri`, `dbname`, `dbuser`, `dbpass`, `dbhost`, `dbport`,
`dbtype`) to `None`, performs no effect, and leaves every other stored field —
in particular `database_available` — unchanged (so the flag stays false
whenever it was false before the event). -/
theorem master_changed_none_clears_connection_fields (s : StoredState)
    (installedNow : Bool) :
    on_master_changed s true
      { database := some "nextcloud", master := none } installedNow =
    ({ s with
        db_conn_str := none
        db_uri := none
        dbname := none
        dbuser := none
        dbpass := none
        dbhost := none
        dbport := none
        dbtype := none }, []) := by
  rfl

/-- C9: a master-changed event carrying a master for database `'nextcloud'`,
delivered to the leader while `nextcloud_initialized` is false, first marks
`database_available` and then attempts initialization (directory permissions,
`occ maintenance:install`, trusted domains, `occ status`); when the status
query reports `installed` false, the unit ends with `database_available = true`
and `nextcloud_initialized = false` — the inconsistent flag pair is reachable
on this path. -/
theorem master_changed_not_installed_flag_split (s : StoredState)
    (m : ConnectionString) (h : s.nextcloud_initialized = false) :
    (on_master_changed s true
      { database := some "nextcloud", master := some m } false).1.database_available
        = true ∧
    (on_master_changed s true
      { database := some "nextcloud", master := some m } false).1.nextcloud_initialized
        = false ∧
    (on_master_changed s true
      { database := some "nextcloud", master := some m } false).2 =
      [Effect.setDirectoryPermissions, Effect.initNextcloud,
       Effect.addInitialTrustedDomain, Effect.occStatusCheck] := by
  simp [on_master_changed, h]

/-- Witness for `master_changed_not_installed_flag_split` at the fresh-install
state and a concrete connection string. -/
theorem master_changed_not_installed_flag_split_witness :
    (on_master_changed initStored true
      { database := some "nextcloud"
        master := some
          { conn_str := "cs"
            uri := "uri"
            dbname := "nextcloud"
            user := "u"
            password := "p"
            host := "h"
            port := "5432" } }
      false).1.database_available = true :=
  (master_changed_not_installed_flag_split initStored
    { conn_str := "cs"
      uri := "uri"
      dbname := "nextcloud"
      user := "u"
      password := "p"
      host := "h"
      port := "5432" } rfl).1

/-- `_on_install`: unconditionally installs the OS package dependencies
(`_install_deps`, which touches no stored flag), then — only if
`nextcloud_fetched` is not yet set — fetches and extracts the Nextcloud
tarball, which sets `nextcloud_fetched` on success. -/
def on_install (s : StoredState) : StoredState × List Effect :=
  if !s.nextcloud_fetched then
    ({ s with nextcloud_fetched := true }, [Effect.aptInstall, Effect.fetchExtract])
  else (s, [Effect.aptInstall])

/-- C10: on every install event the package-installation step runs first and
unconditionally; the handler's final state differs from the initial one only in
`nextcloud_fetched` (set by the guarded fetch-and-extract step, the sole flag
this handler can set); and when `nextcloud_fetched` was already set the stored
state is completely unchanged — the package step sets no flag. -/
theorem install_unconditional_deps (s : StoredState) :
    (on_install s).2.head? = some Effect.aptInstall ∧
    (on_install s).1 = { s with nextcloud_fetched := true } ∧
    (s.nextcloud_fetched = true →
      (on_install s).1 = s ∧ (on_install s).2 = [Effect.aptInstall]) := by
  obtain ⟨dd, f, i, da, a, p, c1, c2, c3, c4, c5, c6, c7, c8⟩ := s
  cases f <;> simp [on_install]

/-- Witness for `install_unconditional_deps` at a state with
`nextcloud_fetched` already set. -/
theorem install_unconditional_deps_witness :
    (on_install { initStored with nextcloud_fetched := true }).1 =
      { initStored with nextcloud_fetched := true } :=
  ((install_unconditional_deps
    { initStored with nextcloud_fetched := true }).2.2 rfl).1

/-- Association-list lookup, as reading a key from a relation data bag
(`event.relation.data[self.app]['key']` and the `in` test). -/
def lookupKV : List (String × String) → String → Option String
  | [], _ => none
  | (k, v) :: rest, key => if k = key then some v else lookupKV rest key

/-- The module constant `NEXTCLOUD_ROOT`. -/
def NEXTCLOUD_ROOT : String := "/var/www/nextcloud"

/-- The module constant `NEXTCLOUD_CONFIG_PHP`. -/
def NEXTCLOUD_CONFIG_PHP : String := "/var/www/nextcloud/config/config.php"

/-- `os.path.join(NEXTCLOUD_ROOT, 'data')` as computed in
`_on_cluster_relation_changed`. -/
def data_dir_path : String := "/var/www/nextcloud/data"

/-- `os.path.join(data_dir_path, '.ocdata')` as computed in
`_on_cluster_relation_changed`. -/
def ocdata_path : String := "/var/www/nextcloud/data/.ocdata"

/-- The slice of the file system the handlers touch: regular files
(path to content) and directories. -/
structure FS where
  files : List (String × String)
  dirs : List String
  deriving Repr, DecidableEq

/-- Content of a regular file, `none` when absent. -/
def FS.readFile (fs : FS) (p : String) : Option String :=
  lookupKV fs.files p

/-- `os.path.exists`: true when `p` is an existing file or directory. -/
def FS.pathExists (fs : FS) (p : String) : Bool :=
  (fs.readFile p).isSome || fs.dirs.contains p

/-- `open(p, "w")` followed by `write(c)`: create or truncate-and-overwrite.
Modelled by shadowing in the association list (`FS.readFile` returns the
first, i.e. most recent, entry for a path). -/
def FS.writeFile (fs : FS) (p c : String) : FS :=
  { fs with files := (p, c) :: fs.files }

/-- `os.mkdir p`. -/
def FS.mkdir (fs : FS) (p : String) : FS :=
  { fs with dirs := p :: fs.dirs }

/-- `open(p, 'a').close()`: create an empty file when absent, otherwise leave
the file untouched. -/
def FS.touch (fs : FS) (p : String) : FS :=
  if (fs.readFile p).isSome then fs
  else { fs with files := (p, "") :: fs.files }

/-- Result of a cluster-relation-changed delivery: new stored state, new file
system, and whether the event was deferred. -/
structure ClusterChangedResult where
  stored : StoredState
  fs : FS
  deferred : Bool
  deriving Repr, DecidableEq

/-- The file-system part of `_on_cluster_relation_changed`'s non-leader
branch: write the payload to `NEXTCLOUD_CONFIG_PHP`, then `os.mkdir` the data
directory if `os.path.exists` denies it, then create the `.ocdata` marker
(`open(..., 'a').close()`) if `os.path.exists` denies it. -/
def clusterConfigFS (fs : FS) (nextcloud_config : String) : FS :=
  let fs1 := fs.writeFile NEXTCLOUD_CONFIG_PHP nextcloud_config
  let fs2 := if fs1.pathExists data_dir_path then fs1
    else fs1.mkdir data_dir_path
  if fs2.pathExists ocdata_path then fs2
  else fs2.touch ocdata_path

/-- `_on_cluster_relation_changed`: the leader does nothing; a non-leader
defers when the application relation data (`appData`) has no
`'nextcloud_config'` key, and otherwise writes the payload to
`NEXTCLOUD_CONFIG_PHP`, creates the data directory and the `.ocdata` marker
file when absent (`clusterConfigFS`), fixes directory ownership, and sets
`database_available` and `nextcloud_initialized`. -/
def on_cluster_relation_changed (s : StoredState) (isLeader : Bool)
    (appData : List (String × String)) (fs : FS) : ClusterChangedResult :=
  if isLeader then ⟨s, fs, false⟩
  else
    match lookupKV appData "nextcloud_config" with
    | none => ⟨s, fs, true⟩
    | some nextcloud_config =>
      ⟨{ s with database_available := true, nextcloud_initialized := true },
        clusterConfigFS fs nextcloud_config, false⟩

/-- Reading back the file written by `FS.writeFile` yields what was written. -/
theorem FS.readFile_writeFile (fs : FS) (p c : String) :
    (fs.writeFile p c).readFile p = some c := by
  simp [FS.readFile, FS.writeFile, lookupKV]

/-- Reading another path is unaffected by `FS.writeFile`. -/
theorem FS.readFile_writeFile_ne (fs : FS) (p c q : String) (h : q ≠ p) :
    (fs.writeFile p c).readFile q = fs.readFile q := by
  have hpq : ¬ (p = q) := fun hpq => h hpq.symm
  simp [FS.readFile, FS.writeFile, lookupKV, hpq]

/-- `clusterConfigFS` leaves the payload readable verbatim at
`NEXTCLOUD_CONFIG_PHP`, makes the `.ocdata` marker exist, creates it empty
exactly when it was absent, and preserves its content when it was a file. -/
theorem clusterConfigFS_spec (fs : FS) (cfg : String) :
    (clusterConfigFS fs cfg).readFile NEXTCLOUD_CONFIG_PHP = some cfg ∧
    (clusterConfigFS fs cfg).pathExists ocdata_path = true ∧
    (fs.pathExists ocdata_path = false →
      (clusterConfigFS fs cfg).readFile ocdata_path = some "") ∧
    (∀ c, fs.readFile ocdata_path = some c →
      (clusterConfigFS fs cfg).readFile ocdata_path = some c) := by
  have hne : ¬ (NEXTCLOUD_CONFIG_PHP = ocdata_path) := by decide
  have hne2 : ¬ (ocdata_path = NEXTCLOUD_CONFIG_PHP) := by decide
  have hnd : (ocdata_path == data_dir_path) = false := by decide
  obtain ⟨files, dirs⟩ := fs
  simp only [clusterConfigFS, FS.touch]
  split_ifs with h1 h2 h3 h4 h5 <;>
    simp_all [FS.pathExists, FS.readFile, FS.writeFile, FS.mkdir, lookupKV,
      hne, hne2, hnd, List.contains_cons, Option.isSome_iff_ne_none] <;>
    tauto

/-- C3: a cluster-relation-changed event on a non-leader whose application
relation data carries a `'nextcloud_config'` payload writes that payload
verbatim to `NEXTCLOUD_CONFIG_PHP`, ensures the `.ocdata` marker exists
afterwards (creating it empty exactly when it was absent, leaving its content
alone when present), does not defer, and sets both `database_available` and
`nextcloud_initialized`; all other stored fields are unchanged. -/
theorem cluster_changed_nonleader_with_config (s : StoredState)
    (appData : List (String × String)) (fs : FS) (cfg : String)
    (h : lookupKV appData "nextcloud_config" = some cfg) :
    (on_cluster_relation_changed s false appData fs).fs.readFile
        NEXTCLOUD_CONFIG_PHP = some cfg ∧
    (on_cluster_relation_changed s false appData fs).fs.pathExists
        ocdata_path = true ∧
    (fs.pathExists ocdata_path = false →
      (on_cluster_relation_changed s false appData fs).fs.readFile
        ocdata_path = some "") ∧
    (∀ c, fs.readFile ocdata_path = some c →
      (on_cluster_relation_changed s false appData fs).fs.readFile
        ocdata_path = some c) ∧
    (on_cluster_relation_changed s false appData fs).deferred = false ∧
    (on_cluster_relation_changed s false appData fs).stored =
      { s with database_available := true, nextcloud_initialized := true } := by
  have hres : on_cluster_relation_changed s false appData fs =
      ⟨{ s with database_available := true, nextcloud_initialized := true },
        clusterConfigFS fs cfg, false⟩ := by
    simp [on_cluster_relation_changed, h]
  obtain ⟨h1, h2, h3, h4⟩ := clusterConfigFS_spec fs cfg
  rw [hres]
  exact ⟨h1, h2, h3, h4, rfl, rfl⟩

/-- Witness for `cluster_changed_nonleader_with_config`: relation data with a
concrete payload, on an empty file system. -/
theorem cluster_changed_nonleader_with_config_witness :
    (on_cluster_relation_changed initStored false
      [("nextcloud_config", "<?php CONFIG")] ⟨[], []⟩).fs.readFile
        NEXTCLOUD_CONFIG_PHP = some "<?php CONFIG" :=
  (cluster_changed_nonleader_with_config initStored
    [("nextcloud_config", "<?php CONFIG")] ⟨[], []⟩ "<?php CONFIG"
    (by simp [lookupKV])).1

/-- C5: a cluster-relation-changed event on a non-leader whose application
relation data lacks the `'nextcloud_config'` key defers and changes nothing:
stored state and file system are returned untouched. -/
theorem cluster_changed_nonleader_no_config (s : StoredState)
    (appData : List (String × String)) (fs : FS)
    (h : lookupKV appData "nextcloud_config" = none) :
    on_cluster_relation_changed s false appData fs = ⟨s, fs, true⟩ := by
  simp [on_cluster_relation_changed, h]

/-- Witness for `cluster_changed_nonleader_no_config` on empty relation data. -/
theorem cluster_changed_nonleader_no_config_witness :
    on_cluster_relation_changed initStored false [] ⟨[], []⟩ =
      ⟨initStored, ⟨[], []⟩, true⟩ :=
  cluster_changed_nonleader_no_config initStored [] ⟨[], []⟩ rfl

/-- A `pgsql.DatabaseRelationJoinedEvent`: its mutable `database` request
field (`None` until set) and `extensions` request list. -/
structure DBJoinedEvent where
  database : Option String
  extensions : List String
  deriving Repr, DecidableEq

/-- `_on_database_relation_joined`: the leader writes the database request
(name `'nextcloud'`, extensions `['citext']`) onto the event; a non-leader
whose event does not yet carry database `'nextcloud'` defers; otherwise
nothing happens.  Returns the stored state, the event as possibly mutated,
and whether the event was deferred. -/
def on_database_relation_joined (s : StoredState) (isLeader : Bool)
    (e : DBJoinedEvent) : StoredState × DBJoinedEvent × Bool :=
  if isLeader then
    (s, { database := some "nextcloud", extensions := ["citext"] }, false)
  else if e.database ≠ some "nextcloud" then
    (s, e, true)
  else
    (s, e, false)

/-- C4: on a database-relation-joined event the leader sets the requested
database name to `'nextcloud'` and the extension list to exactly `['citext']`
(stored state untouched); a non-leader whose event's database name differs
from `'nextcloud'` defers, mutating neither the stored state nor the event. -/
theorem db_relation_joined_leader_and_nonleader (s : StoredState)
    (e : DBJoinedEvent) :
    (on_database_relation_joined s true e =
      (s, { database := some "nextcloud", extensions := ["citext"] }, false)) ∧
    (e.database ≠ some "nextcloud" →
      on_database_relation_joined s false e = (s, e, true)) := by
  refine ⟨rfl, fun h => ?_⟩
  simp [on_database_relation_joined, h]

/-- Witness for `db_relation_joined_leader_and_nonleader`: a non-leader seeing
an event whose database request is still unset defers it unchanged. -/
theorem db_relation_joined_leader_and_nonleader_witness :
    on_database_relation_joined initStored false ⟨none, []⟩ =
      (initStored, ⟨none, []⟩, true) :=
  (db_relation_joined_leader_and_nonleader initStored ⟨none, []⟩).2
    (by simp)

/-- `_on_config_changed`: re-renders the php module configuration
(`_config_php`, which sets `php_configured`) and the apache site
(`_config_apache2`, which sets `apache_configured`), then restarts apache and
re-evaluates the status; its effect on the stored state. -/
def on_config_changed (s : StoredState) : StoredState :=
  { s with apache_configured := true, php_configured := true }

/-- The events `NextcloudCharm.__init__` binds handlers to, each carrying the
data its handler consults (leadership, the event's fields, the `occ status`
`installed` answer, the application relation data bag). -/
inductive CharmEvent where
  | install
  | configChanged
  | start
  | leaderElected
  | updateStatus (isLeader : Bool) (ncVersion : String)
  | databaseRelationJoined (isLeader : Bool) (e : DBJoinedEvent)
  | masterChanged (isLeader : Bool) (e : MasterChangedEvent) (installedNow : Bool)
  | clusterRelationJoined (isLeader : Bool)
  | clusterRelationChanged (isLeader : Bool) (appData : List (String × String))
  | clusterRelationDeparted (isLeader : Bool)
  | clusterRelationBroken
  | redisAvailable
  deriving Repr, DecidableEq

/-- The effect of one event delivery on the persisted `StoredState`
(`_on_start`, `_on_leader_elected`, `_on_update_status`,
`_on_cluster_relation_joined`, `_on_cluster_relation_departed`,
`_on_cluster_relation_broken` and `_on_redis_available` write files, statuses
or relation data but never the stored flags or connection fields). -/
def stepStored (s : StoredState) (fs : FS) : CharmEvent → StoredState
  | CharmEvent.install => (on_install s).1
  | CharmEvent.configChanged => on_config_changed s
  | CharmEvent.start => s
  | CharmEvent.leaderElected => s
  | CharmEvent.updateStatus _ _ => s
  | CharmEvent.databaseRelationJoined isLeader e =>
      (on_database_relation_joined s isLeader e).1
  | CharmEvent.masterChanged isLeader e installedNow =>
      (on_master_changed s isLeader e installedNow).1
  | CharmEvent.clusterRelationJoined _ => s
  | CharmEvent.clusterRelationChanged isLeader appData =>
      (on_cluster_relation_changed s isLeader appData fs).stored
  | CharmEvent.clusterRelationDeparted _ => s
  | CharmEvent.clusterRelationBroken => s
  | CharmEvent.redisAvailable => s

/-- A concrete master-changed event that carries a master for database
`'nextcloud'`. -/
def masterHereEvent : MasterChangedEvent :=
  { database := some "nextcloud"
    master := some
      { conn_str := "host=10.0.0.5 dbname=nextcloud"
        uri := "postgresql://10.0.0.5/nextcloud"
        dbname := "nextcloud"
        user := "u"
        password := "p"
        host := "10.0.0.5"
        port := "5432" } }

/-- C7 counterexample: stored string fields can move backwards.  From the
fresh-install state, a master-changed event delivering a master sets `dbname`
(to the set state `some "nextcloud"`); a subsequent master-changed event with
`master = None` — not a fresh install — resets `dbname` to the unset state
`none`.  So "a string field once set is never reset to unset/None by any
handler" fails on the master-changed handler. -/
theorem stored_fields_reset_on_master_loss :
    (stepStored initStored ⟨[], []⟩
        (CharmEvent.masterChanged true masterHereEvent true)).dbname
      = some "nextcloud" ∧
    (stepStored
        (stepStored initStored ⟨[], []⟩
          (CharmEvent.masterChanged true masterHereEvent true))
        ⟨[], []⟩
        (CharmEvent.masterChanged true
          { database := some "nextcloud", master := none } true)).dbname
      = none := by
  constructor <;> rfl

/-- C7 (amended): under every handler the five persisted boolean flags only
move forward (never true to false); and every handler except master-changed
leaves the eight stored connection string fields untouched — master-changed
may rewrite them, clearing them to `None` exactly when the event carries no
master. -/
theorem flags_move_forward (s : StoredState) (fs : FS) (ev : CharmEvent) :
    (s.nextcloud_fetched = true → (stepStored s fs ev).nextcloud_fetched = true) ∧
    (s.nextcloud_initialized = true →
      (stepStored s fs ev).nextcloud_initialized = true) ∧
    (s.database_available = true → (stepStored s fs ev).database_available = true) ∧
    (s.apache_configured = true → (stepStored s fs ev).apache_configured = true) ∧
    (s.php_configured = true → (stepStored s fs ev).php_configured = true) ∧
    ((∀ isLeader e installedNow,
        ev ≠ CharmEvent.masterChanged isLeader e installedNow) →
      (stepStored s fs ev).db_conn_str = s.db_conn_str ∧
      (stepStored s fs ev).db_uri = s.db_uri ∧
      (stepStored s fs ev).dbname = s.dbname ∧
      (stepStored s fs ev).dbuser = s.dbuser ∧
      (stepStored s fs ev).dbpass = s.dbpass ∧
      (stepStored s fs ev).dbhost = s.dbhost ∧
      (stepStored s fs ev).dbport = s.dbport ∧
      (stepStored s fs ev).dbtype = s.dbtype) := by
  obtain ⟨dd, f, i, da, a, p, c1, c2, c3, c4, c5, c6, c7, c8⟩ := s
  cases ev with
  | install => cases f <;> simp [stepStored, on_install]
  | configChanged => simp [stepStored, on_config_changed]
  | start => simp [stepStored]
  | leaderElected => simp [stepStored]
  | updateStatus => simp [stepStored]
  | databaseRelationJoined isLeader e =>
      cases isLeader
      · by_cases hd : e.database ≠ some "nextcloud" <;>
          simp [stepStored, on_database_relation_joined, hd]
      · simp [stepStored, on_database_relation_joined]
  | masterChanged isLeader e installedNow =>
      refine ⟨?_, ?_, ?_, ?_, ?_, fun hc => absurd rfl (hc isLeader e installedNow)⟩ <;>
      · by_cases hd : e.database ≠ some "nextcloud"
        · simp [stepStored, on_master_changed, hd]
        · cases isLeader
          · simp [stepStored, on_master_changed, hd]
          · cases hm : e.master with
            | none => cases i <;> simp [stepStored, on_master_changed, hd, hm]
            | some m =>
                cases i <;> cases installedNow <;>
                  simp [stepStored, on_master_changed, hd, hm]
  | clusterRelationJoined => simp [stepStored]
  | clusterRelationChanged isLeader appData =>
      cases isLeader
      · cases hk : lookupKV appData "nextcloud_config" <;>
          simp [stepStored, on_cluster_relation_changed, hk]
      · simp [stepStored, on_cluster_relation_changed]
  | clusterRelationDeparted => simp [stepStored]
  | clusterRelationBroken => simp [stepStored]
  | redisAvailable => simp [stepStored]

/-- Witness for `flags_move_forward`: the fetched flag survives a
config-changed event, and the connection fields survive an install event. -/
theorem flags_move_forward_witness :
    (stepStored { initStored with nextcloud_fetched := true } ⟨[], []⟩
      CharmEvent.configChanged).nextcloud_fetched = true ∧
    (stepStored initStored ⟨[], []⟩ CharmEvent.install).dbname = initStored.dbname :=
  ⟨(flags_move_forward { initStored with nextcloud_fetched := true } ⟨[], []⟩
      CharmEvent.configChanged).1 rfl,
   ((flags_move_forward initStored ⟨[], []⟩ CharmEvent.install).2.2.2.2.2
      (by intro isLeader e installedNow h; cases h)).2.2.1⟩

/-- An invocation of the `occ` administration CLI, as wrapped by the `Occ`
helper class (`occ.py` is not under `src/`; only the calls made by the action
handlers in `charm.py` are modelled). -/
inductive OccCmd where
  | dbAddMissingIndices
  | convertFilecacheBigint
  | maintenance (enable : Bool)
  deriving Repr, DecidableEq

/-- `_on_add_missing_indices_action`: runs `Occ.db_add_missing_indices()` and
publishes its captured output under `'occ-output'`.  `occOut` is the output
each CLI invocation would produce; the first component is the ordered list of
CLI invocations performed, the second the action's result payload. -/
def on_add_missing_indices_action (occOut : OccCmd → String) :
    List OccCmd × List (String × String) :=
  ([OccCmd.dbAddMissingIndices],
   [("occ-output", occOut OccCmd.dbAddMissingIndices)])

/-- `_on_convert_filecache_bigint_action`: enables maintenance mode, runs
`Occ.convert_filecache_bigint()`, publishes that call's captured output under
`'occ-output'`, then disables maintenance mode. -/
def on_convert_filecache_bigint_action (occOut : OccCmd → String) :
    List OccCmd × List (String × String) :=
  ([OccCmd.maintenance true, OccCmd.convertFilecacheBigint,
    OccCmd.maintenance false],
   [("occ-output", occOut OccCmd.convertFilecacheBigint)])

/-- `_on_maintenance_action`: runs `Occ.maintenance(enable=params['enable'])`
and publishes its captured output under `'occ-output'`. -/
def on_maintenance_action (occOut : OccCmd → String) (enable : Bool) :
    List OccCmd × List (String × String) :=
  ([OccCmd.maintenance enable],
   [("occ-output", occOut (OccCmd.maintenance enable))])

/-- C8 counterexample: the convert-filecache-bigint action is not a direct
pass-through with no other side effect — besides the conversion call it also
enables maintenance mode before it and disables maintenance mode after it. -/
theorem convert_filecache_bigint_not_passthrough :
    (on_convert_filecache_bigint_action (fun _ => "")).1 ≠
      [OccCmd.convertFilecacheBigint] := by
  decide

/-- The whitespace characters Python `str.split()` (no arguments) splits on
(ASCII subset: space, tab, newline, carriage return, vertical tab, form feed). -/
def isPySpace (c : Char) : Bool :=
  c == ' ' || c == '\t' || c == '\n' || c == '\r' || c == '\x0b' || c == '\x0c'

/-- Python `str.split()` on a character list: split on runs of whitespace,
dropping empty pieces.  `acc` holds the current token reversed. -/
def splitWSAux : List Char → List Char → List (List Char)
  | [], acc => if acc.isEmpty then [] else [acc.reverse]
  | c :: cs, acc =>
    if isPySpace c then
      if acc.isEmpty then splitWSAux cs []
      else acc.reverse :: splitWSAux cs []
    else splitWSAux cs (c :: acc)

/-- Python `output.split()`. -/
def pySplit (s : String) : List String :=
  (splitWSAux s.data []).map String.mk

/-- JSON values, the shape `json.loads` produces for the `occ status` payload
(objects, arrays, strings, booleans, null, nonnegative integers). -/
inductive JVal where
  | jnull
  | jbool (b : Bool)
  | jnum (n : Nat)
  | jstr (s : String)
  | jarr (xs : List JVal)
  | jobj (fields : List (String × JVal))

/-- Numeric value of a decimal digit character. -/
def digitVal (c : Char) : Nat := c.toNat - '0'.toNat

/-- Parse a run of decimal digits (accumulator `acc`), returning the number
and the rest of the input. -/
def parseDigits : List Char → Nat → Nat × List Char
  | [], acc => (acc, [])
  | c :: cs, acc =>
    if c.isDigit then parseDigits cs (acc * 10 + digitVal c)
    else (acc, c :: cs)

/-- Parse a JSON string body (after the opening quote, up to the closing
quote); escape sequences are outside the modelled subset. -/
def parseStringBody : List Char → Option (List Char × List Char)
  | [] => none
  | c :: cs =>
    if c == '"' then some ([], cs)
    else if c == '\\' then none
    else match parseStringBody cs with
      | some (s, rest) => some (c :: s, rest)
      | none => none

mutual

/-- Modelled from `json.loads`, restricted to the payloads `occ status`
emits: compact (whitespace-free) JSON built from objects, arrays, strings
without escapes, `true`/`false`/`null`, and nonnegative integers.  Fuel-driven
recursive descent returning the value and the unconsumed input. -/
def parseVal : Nat → List Char → Option (JVal × List Char)
  | 0, _ => none
  | Nat.succ fuel, cs =>
    match cs with
    | 'n' :: 'u' :: 'l' :: 'l' :: rest => some (JVal.jnull, rest)
    | 't' :: 'r' :: 'u' :: 'e' :: rest => some (JVal.jbool true, rest)
    | 'f' :: 'a' :: 'l' :: 's' :: 'e' :: rest => some (JVal.jbool false, rest)
    | '"' :: rest =>
      match parseStringBody rest with
      | some (s, rest1) => some (JVal.jstr (String.mk s), rest1)
      | none => none
    | '{' :: '}' :: rest => some (JVal.jobj [], rest)
    | '{' :: rest =>
      match parseMembers fuel rest with
      | some (fields, rest1) => some (JVal.jobj fields, rest1)
      | none => none
    | '[' :: ']' :: rest => some (JVal.jarr [], rest)
    | '[' :: rest =>
      match parseElems fuel rest with
      | some (xs, rest1) => some (JVal.jarr xs, rest1)
      | none => none
    | c :: rest =>
      if c.isDigit then
        let p := parseDigits rest (digitVal c)
        some (JVal.jnum p.1, p.2)
      else none
    | [] => none

/-- Parse the members of a JSON object after its opening brace (nonempty
case), through the closing brace. -/
def parseMembers : Nat → List Char → Option (List (String × JVal) × List Char)
  | 0, _ => none
  | Nat.succ fuel, cs =>
    match cs with
    | '"' :: rest =>
      match parseStringBody rest with
      | some (k, ':' :: rest1) =>
        match parseVal fuel rest1 with
        | some (v, '}' :: rest2) => some ([(String.mk k, v)], rest2)
        | some (v, ',' :: rest2) =>
          match parseMembers fuel rest2 with
          | some (fields, rest3) => some ((String.mk k, v) :: fields, rest3)
          | none => none
        | _ => none
      | _ => none
    | _ => none

/-- Parse the elements of a JSON array after its opening bracket (nonempty
case), through the closing bracket. -/
def parseElems : Nat → List Char → Option (List JVal × List Char)
  | 0, _ => none
  | Nat.succ fuel, cs =>
    match parseVal fuel cs with
    | some (v, ']' :: rest) => some ([v], rest)
    | some (v, ',' :: rest) =>
      match parseElems fuel rest with
      | some (xs, rest1) => some (v :: xs, rest1)
      | none => none
    | _ => none

end

/-- `json.loads` on a whole string (modelled subset): the parse must consume
the entire input. -/
def parseJson (s : String) : Option JVal :=
  match parseVal (s.data.length + 1) s.data with
  | some (v, []) => some v
  | _ => none

mutual

/-- Serialize a `JVal` back to compact (whitespace-free) JSON text. -/
def serialize : JVal → String
  | JVal.jnull => "null"
  | JVal.jbool true => "true"
  | JVal.jbool false => "false"
  | JVal.jnum n => toString n
  | JVal.jstr s => "\"" ++ s ++ "\""
  | JVal.jarr xs => "[" ++ serializeElems xs ++ "]"
  | JVal.jobj fields => "\x7b" ++ serializeMembers fields ++ "\x7d"

/-- Comma-separated serialization of array elements. -/
def serializeElems : List JVal → String
  | [] => ""
  | [v] => serialize v
  | v :: w :: rest => serialize v ++ "," ++ serializeElems (w :: rest)

/-- Comma-separated serialization of object members. -/
def serializeMembers : List (String × JVal) → String
  | [] => ""
  | [(k, v)] => "\"" ++ k ++ "\":" ++ serialize v
  | (k, v) :: m :: rest =>
      "\"" ++ k ++ "\":" ++ serialize v ++ "," ++ serializeMembers (m :: rest)

end

/-- `get_nextcloud_status`: runs `occ status --output=json --no-warnings` and
parses `output.split()[-1]` — the last whitespace-delimited token of the
captured stdout — with `json.loads`.  The subprocess output is passed in;
the result is `none` where the source would raise (no token, or a token
`json.loads` rejects). -/
def get_nextcloud_status (output : String) : Option JVal :=
  (pySplit output).getLast?.bind parseJson

/-- One step of `splitWSAux` on a non-whitespace head: push it onto the
accumulator. -/
theorem splitWSAux_cons_nonspace (c : Char) (cs acc : List Char)
    (hc : isPySpace c = false) :
    splitWSAux (c :: cs) acc = splitWSAux cs (c :: acc) := by
  simp [splitWSAux, hc]

/-- One step of `splitWSAux` on a whitespace head: emit the pending token if
any and reset the accumulator. -/
theorem splitWSAux_cons_space (c : Char) (cs acc : List Char)
    (hc : isPySpace c = true) :
    splitWSAux (c :: cs) acc =
      if acc.isEmpty then splitWSAux cs []
      else acc.reverse :: splitWSAux cs [] := by
  simp [splitWSAux, hc]

/-- On a nonempty whitespace-free input, `splitWSAux` yields exactly one
token: the pending accumulator followed by the input. -/
theorem splitWSAux_nonspace :
    ∀ (t : List Char), t ≠ [] → (∀ c ∈ t, isPySpace c = false) →
      ∀ acc : List Char, splitWSAux t acc = [acc.reverse ++ t]
  | [], hne, _, _ => absurd rfl hne
  | c :: cs, _, ht, acc => by
    have hc : isPySpace c = false := ht c (List.mem_cons_self c cs)
    cases cs with
    | nil => simp [splitWSAux, hc]
    | cons d ds =>
        have ih := splitWSAux_nonspace (d :: ds) (by simp)
          (fun x hx => ht x (List.mem_cons_of_mem c hx)) (c :: acc)
        rw [splitWSAux_cons_nonspace c (d :: ds) acc hc, ih]
        simp

/-- Consing onto a list keeps a known last element. -/
theorem getLast?_cons_of_some {α : Type} (x : α) (l : List α) (a : α)
    (h : l.getLast? = some a) : (x :: l).getLast? = some a := by
  cases l with
  | nil => simp at h
  | cons y ys => rw [List.getLast?_cons_cons]; exact h

/-- Any leading garbage followed by a newline and a nonempty whitespace-free
token splits so that the token is the last piece. -/
theorem splitWSAux_append_token :
    ∀ (g : List Char) (t : List Char), t ≠ [] →
      (∀ c ∈ t, isPySpace c = false) → ∀ acc : List Char,
      (splitWSAux (g ++ '\n' :: t) acc).getLast? = some t
  | [], t, hne, ht, acc => by
      have h1 : splitWSAux t [] = [t] := by
        simpa using splitWSAux_nonspace t hne ht []
      have hnl : isPySpace '\n' = true := rfl
      rw [List.nil_append, splitWSAux_cons_space '\n' t acc hnl, h1]
      cases hacc : acc.isEmpty <;> simp [hacc]
  | c :: g, t, hne, ht, acc => by
      rw [List.cons_append]
      cases hc : isPySpace c with
      | true =>
          rw [splitWSAux_cons_space c (g ++ '\n' :: t) acc hc]
          cases hacc : acc.isEmpty with
          | true =>
              rw [if_pos rfl]
              exact splitWSAux_append_token g t hne ht []
          | false =>
              rw [if_neg (by simp)]
              exact getLast?_cons_of_some _ _ _
                (splitWSAux_append_token g t hne ht [])
      | false =>
          rw [splitWSAux_cons_nonspace c (g ++ '\n' :: t) acc hc]
          exact splitWSAux_append_token g t hne ht (c :: acc)

/-- `List.map` preserves the last element. -/
theorem lastOfMap {α β : Type} (f : α → β) :
    ∀ l : List α, (l.map f).getLast? = l.getLast?.map f
  | [] => rfl
  | [a] => rfl
  | a :: b :: l => by
      simp only [List.map_cons, List.getLast?_cons_cons]
      exact lastOfMap f (b :: l)

/-- Rebuilding a string from its character data is the identity. -/
theorem string_mk_data (s : String) : String.mk s.data = s := by
  cases s
  rfl

/-- The known-good compact `occ status` JSON payload used for the round-trip
check. -/
def goodStatusJson : String :=
  "\x7b\"installed\":true,\"version\":\"18.0.4.2\",\"versionstring\":\"18.0.4\",\"edition\":\"\"\x7d"

/-- The JSON value of `goodStatusJson`. -/
def goodStatusVal : JVal :=
  JVal.jobj [("installed", JVal.jbool true),
             ("version", JVal.jstr "18.0.4.2"),
             ("versionstring", JVal.jstr "18.0.4"),
             ("edition", JVal.jstr "")]

/-- C6: `get_nextcloud_status` takes its JSON payload from the last
whitespace-delimited token of the command output: any leading non-JSON lines
followed by a whitespace-free JSON token parse to exactly that token's value;
and on the known-good status payload parsing and re-serializing round-trips. -/
theorem get_nextcloud_status_last_token_roundtrip :
    (∀ (g t : String) (v : JVal), t ≠ "" →
      (∀ c ∈ t.data, isPySpace c = false) → parseJson t = some v →
      get_nextcloud_status (g ++ "\n" ++ t) = some v) ∧
    parseJson goodStatusJson = some goodStatusVal ∧
    serialize goodStatusVal = goodStatusJson := by
  refine ⟨?_, by rfl, by rfl⟩
  intro g t v hne hws hp
  have hdata : (g ++ "\n" ++ t).data = g.data ++ '\n' :: t.data := by
    simp [String.data_append]
  have htne : t.data ≠ [] := by
    intro hd
    exact hne (by rw [← string_mk_data t, hd])
  have hlast : (splitWSAux ((g ++ "\n" ++ t).data) []).getLast? = some t.data := by
    rw [hdata]
    exact splitWSAux_append_token g.data t.data htne hws []
  have hsplit : (pySplit (g ++ "\n" ++ t)).getLast? = some t := by
    rw [pySplit, lastOfMap, hlast]
    simp [string_mk_data]
  rw [get_nextcloud_status, hsplit]
  exact hp

/-- Witness for `get_nextcloud_status_last_token_roundtrip`: a concrete
output with a leading warning line (itself containing spaces) followed by the
known-good payload parses to the known-good value. -/
theorem get_nextcloud_status_last_token_roundtrip_witness :
    get_nextcloud_status
      ("Cannot write into apps directory" ++ "\n" ++ goodStatusJson) =
      some goodStatusVal :=
  get_nextcloud_status_last_token_roundtrip.1
    "Cannot write into apps directory" goodStatusJson goodStatusVal
    (by decide) (by decide) (by rfl)

/-- Spec-side (from the claim's words, for comparison with the action
handlers): an action is a direct pass-through of one CLI invocation when, for
every CLI behaviour, it performs exactly that invocation and no other side
effect, and returns its captured output verbatim under `'occ-output'`. -/
def isPassThroughSpec
    (action : (OccCmd → String) → List OccCmd × List (String × String))
    (cmd : OccCmd) : Prop :=
  ∀ occOut, action occOut = ([cmd], [("occ-output", occOut cmd)])

/-- C8 (amended): add-missing-indices and maintenance are direct pass-through
CLI invocations; convert-filecache-bigint is not — it additionally wraps its
CLI call in a maintenance-mode enable/disable pair — but it too returns the
captured output of its main CLI call verbatim as the action result under
`'occ-output'`. -/
theorem actions_pass_through_occ_output :
    isPassThroughSpec on_add_missing_indices_action OccCmd.dbAddMissingIndices ∧
    (∀ enable, isPassThroughSpec
      (fun occOut => on_maintenance_action occOut enable)
      (OccCmd.maintenance enable)) ∧
    (∀ occOut, on_convert_filecache_bigint_action occOut =
      ([OccCmd.maintenance true, OccCmd.convertFilecacheBigint,
        OccCmd.maintenance false],
       [("occ-output", occOut OccCmd.convertFilecacheBigint)])) :=
  ⟨fun _ => rfl, fun _ _ => rfl, fun _ => rfl⟩
